import Mathlib

/-!
Verification development for the csgdw-data-chat repository.

The definitions below are a shallow embedding of the query-routing and
resolution core of the repository: the business-dictionary term resolver and
mutators (`src/src/schema_service.py`), the keyword router and statement
extractor (`src/src/ai_service.py`), the catalog extraction
(`src/src/schema_service.py`), the backend execution adapters
(`src/src/database_tools.py`, `src/src/ai_service.py`), and the refactored
statement extractor (`src/app/tools/sql_query.py`).

Strings are modelled as `List Char`; Python string operations (`lower`,
`strip`, `rstrip`, substring containment, `re.search` on the concrete
patterns used by the code) are modelled by the helpers in the first section.
-/

set_option autoImplicit false

namespace DataChat

/-! ### Python string primitives -/

/-- ASCII lower-casing of one character, as Python `str.lower` acts on the
ASCII inputs this code handles. -/
def lowerCh (c : Char) : Char :=
  if 65 ≤ c.toNat ∧ c.toNat ≤ 90 then Char.ofNat (c.toNat + 32) else c

/-- Python `str.lower` on the whole string. -/
def lowerStr (s : List Char) : List Char := s.map lowerCh

/-- Python `str.isspace` for the ASCII whitespace characters recognised by
`str.strip()` and by the regex class `\s`. -/
def pyIsSpace (c : Char) : Bool :=
  c.toNat == 32 || c.toNat == 9 || c.toNat == 10 || c.toNat == 13 ||
  c.toNat == 11 || c.toNat == 12

/-- Drop matching characters from the right end of a string. -/
def rstripWith (p : Char → Bool) (l : List Char) : List Char :=
  (l.reverse.dropWhile p).reverse

/-- Python `str.strip()` with no argument: trim whitespace on both ends. -/
def pyStrip (l : List Char) : List Char :=
  rstripWith pyIsSpace (l.dropWhile pyIsSpace)

/-- Python `str.rstrip(';')`: drop every trailing semicolon. -/
def rstripSemis (l : List Char) : List Char :=
  rstripWith (fun c => c == ';') l

/-- Boolean string-starts-with test. -/
def isPre : List Char → List Char → Bool
  | [], _ => true
  | _ :: _, [] => false
  | a :: as, b :: bs => a == b && isPre as bs

/-- Index of the first occurrence of `pat` as a contiguous substring of `s`
(the position at which Python `re.search` on a literal pattern, or the
`in` containment operator, finds it). -/
def findSub (pat : List Char) : List Char → Option Nat
  | [] => if pat.isEmpty then some 0 else none
  | c :: rest =>
    if isPre pat (c :: rest) then some 0
    else (findSub pat rest).map (· + 1)

/-- Python `pat in s` substring containment. -/
def containsSub (pat s : List Char) : Bool := (findSub pat s).isSome

/-! ### Statement extractor — `src/src/ai_service.py`, `extract_sql_query`

The Python function searches `text` with two regexes:

* rule 1: ``` ```sql\s*(.*?)\s*``` ``` with `DOTALL | IGNORECASE`.  The
  leftmost match opens at the first (case-insensitive) occurrence of the
  six characters `` ```sql `` that is followed, anywhere later, by a closing
  `` ``` ``; the lazy group together with the two greedy `\s*` makes
  `group(1)` the interior up to the *first* later fence, trimmed of
  whitespace on both ends.  (Occurrences of `` ```sql `` cannot overlap, and
  any later occurrence of `` ```sql `` contains a fence, so if the first
  opener has no closing fence then the regex fails everywhere.)  The code
  then applies `.strip()` — the identity on the already-trimmed group, so
  the model applies `pyStrip` once to the raw interior — and `.rstrip(';')`.
* rule 2, only when rule 1 fails: `(SELECT.*?)(?:\n\n|$)` with
  `DOTALL | IGNORECASE`: the substring from the first case-insensitive
  `SELECT` up to the first `"\n\n"`, or to the end of the text (`$` may also
  stop just before one final newline; `.strip()` erases the difference).
  Again `.strip()` then `.rstrip(';')` are applied.
-/

def sqlFenceOpen : List Char := "```sql".toList

def fenceMark : List Char := "```".toList

def selectTok : List Char := "select".toList

def blankSep : List Char := "\n\n".toList

/-- The part of `sel` matched by the lazy group of `(SELECT.*?)(?:\n\n|$)`
when `sel` starts at the `SELECT` token: up to the first blank separator,
or the whole remainder. -/
def takeUntilBlank (sel : List Char) : List Char :=
  match findSub blankSep sel with
  | some j => sel.take j
  | none => sel

/-- Model of `extract_sql_query` in `src/src/ai_service.py` (the variant that also
strips trailing semicolons). -/
def extract_sql_query (text : List Char) : Option (List Char) :=
  match findSub sqlFenceOpen (lowerStr text) with
  | some i =>
    match findSub fenceMark (text.drop (i + 6)) with
    | some j => some (rstripSemis (pyStrip ((text.drop (i + 6)).take j)))
    | none =>
      match findSub selectTok (lowerStr text) with
      | some k => some (rstripSemis (pyStrip (takeUntilBlank (text.drop k))))
      | none => none
  | none =>
    match findSub selectTok (lowerStr text) with
    | some k => some (rstripSemis (pyStrip (takeUntilBlank (text.drop k))))
    | none => none

/-- Model of `extract_sql_query` in the legacy top-level module `src/ai_service.py`:
same two regexes, but no semicolon stripping. -/
def extract_sql_query_root (text : List Char) : Option (List Char) :=
  match findSub sqlFenceOpen (lowerStr text) with
  | some i =>
    match findSub fenceMark (text.drop (i + 6)) with
    | some j => some (pyStrip ((text.drop (i + 6)).take j))
    | none =>
      match findSub selectTok (lowerStr text) with
      | some k => some (pyStrip (takeUntilBlank (text.drop k)))
      | none => none
  | none =>
    match findSub selectTok (lowerStr text) with
    | some k => some (pyStrip (takeUntilBlank (text.drop k)))
    | none => none

/-- Model of `SqlQueryTool._extract_sql` in `src/app/tools/sql_query.py`.  Its rule-1
regex is character-for-character the legacy one; its rule-2 regex writes the
lazy any-character atom as `[\s\S]` without `DOTALL` instead of `.` with
`DOTALL` — the same character class — and neither pattern enables
`MULTILINE`, so `$` behaves identically.  The semantic model therefore has
the same body as the legacy extractor. -/
def sqlQueryTool_extract_sql (text : List Char) : Option (List Char) :=
  match findSub sqlFenceOpen (lowerStr text) with
  | some i =>
    match findSub fenceMark (text.drop (i + 6)) with
    | some j => some (pyStrip ((text.drop (i + 6)).take j))
    | none =>
      match findSub selectTok (lowerStr text) with
      | some k => some (pyStrip (takeUntilBlank (text.drop k)))
      | none => none
  | none =>
    match findSub selectTok (lowerStr text) with
    | some k => some (pyStrip (takeUntilBlank (text.drop k)))
    | none => none

/-! ### Business dictionary data model — `src/src/schema_service.py`

`BusinessMapping` mirrors the JSON objects stored under `"mappings"` in the
business dictionary (and the `BusinessMapping` dataclass).  `confidence` is
the JSON number field, modelled as a rational. -/

structure BusinessMapping where
  business_term : List Char
  table_name : List Char
  column_name : List Char
  description : List Char
  synonyms : List (List Char)
  category : List Char
  confidence : Rat
deriving DecidableEq

/-- Dictionary metadata block (`"metadata"` in the JSON file). -/
structure DictMetadata where
  version : List Char
  created : List Char
  description : List Char
deriving DecidableEq

/-- The `BusinessDictionary` JSON value held in
`data/metadata/business_dictionary.json`. -/
structure BusinessDictionary where
  metadata : DictMetadata
  categories : List (List Char × List Char)
  mappings : List BusinessMapping
deriving DecidableEq

/-! ### Term resolver — `SchemaService.search_business_terms`

The Python loop, per mapping: a bidirectional case-insensitive containment
test on the business term appends the mapping and `continue`s; otherwise a
hit on any synonym appends the mapping and `break`s out of the synonym loop
only — control then still reaches the description test, which can append
the same mapping a second time. -/

/-- Python `a in b or b in a` on already lower-cased strings. -/
def biContains (a b : List Char) : Bool := containsSub a b || containsSub b a

/-- The entries contributed by one mapping for the lower-cased query `ql`,
in the order the Python loop appends them. -/
def mappingHits (ql : List Char) (m : BusinessMapping) : List BusinessMapping :=
  if biContains (lowerStr m.business_term) ql then [m]
  else
    (if m.synonyms.any (fun syn => biContains (lowerStr syn) ql) then [m] else []) ++
    (if m.description ≠ [] ∧ biContains (lowerStr m.description) ql = true then [m] else [])

/-- Model of `SchemaService.search_business_terms`, as a function of the query and the
dictionary's mapping list. -/
def search_business_terms (query : List Char) (mappings : List BusinessMapping) :
    List BusinessMapping :=
  mappings.flatMap (mappingHits (lowerStr query))

/-- Number of occurrences of `m` in a list of mappings. -/
def countOcc (m : BusinessMapping) (l : List BusinessMapping) : Nat :=
  l.countP (fun x => decide (x = m))

/-! ### Query router — `src/src/ai_service.py`, `enhanced_query_handler`

Only the routing head of the handler is modelled: the keyword test, and the
term-resolver consultation that happens exactly when no keyword matched. -/

def oracle_keywords : List (List Char) :=
  ["oracle".toList, "database".toList, "db".toList, "table".toList,
   "schema".toList, "sql server".toList]

/-- Python `any(keyword in user_message.lower() for keyword in oracle_keywords)`. -/
def keywordHit (msg : List Char) : Bool :=
  oracle_keywords.any (fun kw => containsSub kw (lowerStr msg))

/-- The routing decision of `enhanced_query_handler`, together with whether
the term resolver was consulted and what it returned. -/
structure RouteOutcome where
  isOracle : Bool
  resolverConsulted : Bool
  matchedTerms : List BusinessMapping
deriving DecidableEq

/-- Routing head of `enhanced_query_handler`: `is_oracle_query` starts as the
keyword test; only when it is false is `search_business_terms` run, and a
non-empty match list flips the decision to the Oracle (remote) backend. -/
def enhanced_query_route (msg : List Char) (mappings : List BusinessMapping) :
    RouteOutcome :=
  if keywordHit msg then ⟨true, false, []⟩
  else
    let ms := search_business_terms msg mappings
    ⟨!ms.isEmpty, true, ms⟩

/-! ### Dictionary mutators — `update_business_mapping`, `remove_business_mapping`

`update` walks the mapping list and patches the first entry whose
`business_term` equals the argument case-insensitively, returning `True`;
`remove` rebuilds the list with a comprehension that drops *every*
case-insensitively matching entry, returning `True` when the list shrank. -/

/-- A patch dictionary for `update_business_mapping`: present fields
override the stored mapping (Python `dict.update`). -/
structure MappingPatch where
  business_term : Option (List Char) := none
  table_name : Option (List Char) := none
  column_name : Option (List Char) := none
  description : Option (List Char) := none
  synonyms : Option (List (List Char)) := none
  category : Option (List Char) := none
  confidence : Option Rat := none
deriving DecidableEq

/-- Python `business_dict["mappings"][i].update(updated_mapping)`. -/
def applyPatch (p : MappingPatch) (m : BusinessMapping) : BusinessMapping :=
  { business_term := p.business_term.getD m.business_term
    table_name := p.table_name.getD m.table_name
    column_name := p.column_name.getD m.column_name
    description := p.description.getD m.description
    synonyms := p.synonyms.getD m.synonyms
    category := p.category.getD m.category
    confidence := p.confidence.getD m.confidence }

/-- Model of `SchemaService.update_business_mapping` on the mapping list: the boolean
is the function's return value. -/
def update_business_mapping (term : List Char) (p : MappingPatch) :
    List BusinessMapping → Bool × List BusinessMapping
  | [] => (false, [])
  | m :: ms =>
    if lowerStr m.business_term = lowerStr term then
      (true, applyPatch p m :: ms)
    else
      let r := update_business_mapping term p ms
      (r.1, m :: r.2)

/-- Model of `SchemaService.remove_business_mapping` on the mapping list: the list
comprehension keeps the entries whose term differs case-insensitively, and
the boolean reports whether the count shrank. -/
def remove_business_mapping (term : List Char) (ms : List BusinessMapping) :
    Bool × List BusinessMapping :=
  let ms' := ms.filter (fun m => decide (lowerStr m.business_term ≠ lowerStr term))
  (decide (ms'.length < ms.length), ms')

/-! ### Catalog extraction — `SchemaService.extract_oracle_schema`

The function queries `USER_TABLES`, and for each returned table row queries
`USER_TAB_COLUMNS`; the introspection answers are the input of the model.
Foreign keys, primary keys and comments are explicitly skipped by the code,
so the corresponding fields are constant.  Tables are stored in a dict keyed
by `"schema.table"` (an assignment to an existing key replaces it); the
statistics block is computed at the end from the finished dict. -/

/-- One row of the `USER_TAB_COLUMNS` introspection answer (the fields the
code reads). -/
structure OracleColRow where
  column_name : List Char
  data_type : List Char
  nullable : List Char
deriving DecidableEq

/-- One row of the `USER_TABLES` introspection answer, paired with the
column rows fetched for that table. -/
structure OracleTableRow where
  schema_name : List Char
  table_name : List Char
  num_rows : Option Int
  cols : List OracleColRow
deriving DecidableEq

/-- The `ColumnInfo` dataclass. -/
structure ColumnInfo where
  column_name : List Char
  data_type : List Char
  nullable : Bool
  primary_key : Bool
  foreign_key : Bool
  referenced_table : Option (List Char)
  referenced_column : Option (List Char)
  description : Option (List Char)
deriving DecidableEq

/-- The `TableInfo` dataclass. -/
structure TableInfo where
  table_name : List Char
  schema_name : List Char
  columns : List ColumnInfo
  description : Option (List Char)
  row_count : Option Int
deriving DecidableEq

/-- The `statistics` block of the extracted metadata. -/
structure SchemaStatistics where
  total_schemas : Nat
  total_tables : Nat
  total_relationships : Nat
  total_columns : Nat
deriving DecidableEq

/-- The schema-metadata JSON object built by `extract_oracle_schema` (the
fields the claims are about; `database_info` and the timestamp are opaque
pass-through data). -/
structure SchemaMetadata where
  schemas : List (List Char)
  tables : List (List Char × TableInfo)
  relationships : List (List Char)
  statistics : SchemaStatistics
deriving DecidableEq

/-- Python dict assignment `d[k] = v`: replace the entry at `k` when the key
is present, else append it. -/
def dictInsert (k : List Char) (v : TableInfo) :
    List (List Char × TableInfo) → List (List Char × TableInfo)
  | [] => [(k, v)]
  | (k', v') :: rest =>
    if k' = k then (k, v) :: rest else (k', v') :: dictInsert k v rest

/-- The `ColumnInfo(...)` value constructed in the per-column loop: `nullable` is
`col_info['NULLABLE'] == 'Y'`, primary-key/foreign-key detection and
comments are skipped. -/
def mkColumnInfo (r : OracleColRow) : ColumnInfo :=
  { column_name := r.column_name
    data_type := r.data_type
    nullable := r.nullable = "Y".toList
    primary_key := false
    foreign_key := false
    referenced_table := none
    referenced_column := none
    description := none }

/-- The `TableInfo(...)` value constructed per table row; `TABLE_COMMENT` is not
selected by the query, so `.get('TABLE_COMMENT')` is always `None`. -/
def mkTableInfo (tr : OracleTableRow) : TableInfo :=
  { table_name := tr.table_name
    schema_name := tr.schema_name
    columns := tr.cols.map mkColumnInfo
    description := none
    row_count := tr.num_rows }

/-- The Python full table name: `schema_name`, a dot, `table_name`. -/
def fullTableName (tr : OracleTableRow) : List Char :=
  tr.schema_name ++ ".".toList ++ tr.table_name

/-- Model of `SchemaService.extract_oracle_schema`, as a function of the introspection
answers (current-user schema list and table rows with their columns).  The
`statistics` block is computed from the finished `tables` dict exactly as in
the source: `total_columns` is
`sum(len(table["columns"]) for table in tables.values())`. -/
def extract_oracle_schema (schemas : List (List Char))
    (dbRows : List OracleTableRow) : SchemaMetadata :=
  let tables := dbRows.foldl
    (fun acc tr => dictInsert (fullTableName tr) (mkTableInfo tr) acc) []
  { schemas := schemas
    tables := tables
    relationships := []
    statistics :=
      { total_schemas := schemas.length
        total_tables := tables.length
        total_relationships := 0
        total_columns := (tables.map (fun kv => kv.2.columns.length)).sum } }

/-! ### Dictionary and catalog stores — load/save with cache and file

The on-disk file is modelled as `missing`, `corrupt` (unreadable or
malformed: `open`/`json.load` raises) or `good v`; the in-memory cache as an
`Option`.  `save_*` writes the file and replaces the cache;
`load_business_dictionary` returns the cache when set, else reads the file,
falls back to the built-in template on a missing file (persisting it) and on
a corrupt file (leaving disk and cache untouched — the `except` branch).
`load_schema` returns `{}` (modelled `none`) on a missing or corrupt file. -/

/-- Model of `create_business_dictionary_template`: the built-in template.  `now` is
`datetime.now().isoformat()`. -/
def create_business_dictionary_template (now : List Char) : BusinessDictionary :=
  { metadata :=
      { version := "1.0".toList
        created := now
        description :=
          "Business dictionary for mapping business terms to Oracle schema fields".toList }
    categories :=
      [("customer".toList, "Customer-related terms".toList),
       ("product".toList, "Product and inventory terms".toList),
       ("sales".toList, "Sales and revenue terms".toList),
       ("financial".toList, "Financial and accounting terms".toList),
       ("operational".toList, "Operational and process terms".toList),
       ("general".toList, "General business terms".toList)]
    mappings :=
      [{ business_term := "customer".toList
         table_name := "CUSTOMERS".toList
         column_name := "CUSTOMER_ID".toList
         description := "Customer identifier".toList
         synonyms := ["client".toList, "buyer".toList, "account".toList]
         category := "customer".toList
         confidence := 1 },
       { business_term := "customer name".toList
         table_name := "CUSTOMERS".toList
         column_name := "CUSTOMER_NAME".toList
         description := "Full name of the customer".toList
         synonyms := ["client name".toList, "buyer name".toList, "account name".toList]
         category := "customer".toList
         confidence := 1 },
       { business_term := "product".toList
         table_name := "PRODUCTS".toList
         column_name := "PRODUCT_ID".toList
         description := "Product identifier".toList
         synonyms := ["item".toList, "goods".toList, "merchandise".toList]
         category := "product".toList
         confidence := 1 },
       { business_term := "sales amount".toList
         table_name := "SALES".toList
         column_name := "AMOUNT".toList
         description := "Sales transaction amount".toList
         synonyms := ["revenue".toList, "sales value".toList, "transaction amount".toList]
         category := "sales".toList
         confidence := 1 },
       { business_term := "order date".toList
         table_name := "ORDERS".toList
         column_name := "ORDER_DATE".toList
         description := "Date when order was placed".toList
         synonyms := ["purchase date".toList, "transaction date".toList]
         category := "sales".toList
         confidence := 1 }] }

/-- State of the dictionary file on disk. -/
inductive DictFile where
  | missing : DictFile
  | corrupt (raw : List Char) : DictFile
  | good (d : BusinessDictionary) : DictFile
deriving DecidableEq

/-- The `SchemaService` state relevant to the dictionary store. -/
structure DictStoreState where
  cache : Option BusinessDictionary
  file : DictFile
deriving DecidableEq

/-- Model of `SchemaService.save_business_dictionary`: write the JSON file, then set
the cache. -/
def save_business_dictionary (d : BusinessDictionary) (_st : DictStoreState) :
    DictStoreState :=
  ⟨some d, .good d⟩

/-- Model of `SchemaService.load_business_dictionary`: returns the loaded dictionary
and the successor store state. -/
def load_business_dictionary (now : List Char) (st : DictStoreState) :
    BusinessDictionary × DictStoreState :=
  match st.cache with
  | some d => (d, st)
  | none =>
    match st.file with
    | .good d => (d, ⟨some d, .good d⟩)
    | .missing =>
      let t := create_business_dictionary_template now
      (t, ⟨some t, .good t⟩)
    | .corrupt raw => (create_business_dictionary_template now, ⟨none, .corrupt raw⟩)

/-- State of the schema (catalog) file on disk. -/
inductive SchemaFile where
  | missing : SchemaFile
  | corrupt (raw : List Char) : SchemaFile
  | good (s : SchemaMetadata) : SchemaFile
deriving DecidableEq

/-- The `SchemaService` state relevant to the catalog store. -/
structure SchemaStoreState where
  cache : Option SchemaMetadata
  file : SchemaFile
deriving DecidableEq

/-- Model of `SchemaService.save_schema`: write the JSON file, then set the cache. -/
def save_schema (s : SchemaMetadata) (_st : SchemaStoreState) : SchemaStoreState :=
  ⟨some s, .good s⟩

/-- Model of `SchemaService.load_schema`: cache hit, else file; a missing or
unreadable file yields the empty dict (modelled `none`). -/
def load_schema (st : SchemaStoreState) : Option SchemaMetadata × SchemaStoreState :=
  match st.cache with
  | some s => (some s, st)
  | none =>
    match st.file with
    | .good s => (some s, ⟨some s, .good s⟩)
    | .missing => (none, st)
    | .corrupt _ => (none, st)

/-! ### Backend execution adapters

`DatabaseManager.execute_query` (`src/src/database_tools.py`) raises
`RuntimeError` when not connected, and on a backend error logs and
re-raises; `execute_sql_query` (`src/src/ai_service.py`) runs the statement
on DuckDB and catches every exception, returning an error string instead.
A raised Python exception is modelled as `PyOutcome.raised` with the
exception text; the backend/engine behaviour on a given statement is a
function parameter. -/

/-- A tabular query result. -/
structure DataFrame where
  columns : List (List Char)
  rows : List (List (List Char))
deriving DecidableEq

/-- Outcome of calling a Python function: a returned value, or a raised
exception carrying its message. -/
inductive PyOutcome (α : Type) where
  | returned (val : α) : PyOutcome α
  | raised (msg : List Char) : PyOutcome α
deriving DecidableEq

/-- Whether the call returned normally. -/
def PyOutcome.isReturned {α : Type} : PyOutcome α → Bool
  | .returned _ => true
  | .raised _ => false

/-- What the local adapter hands back: the result table, or the
`"Error executing query: ..."` string built in the `except` branch. -/
inductive LocalResult where
  | table (df : DataFrame) : LocalResult
  | errorText (msg : List Char) : LocalResult
deriving DecidableEq

/-- Model of `DatabaseManager.execute_query` in `src/src/database_tools.py`:
`oracle` is the behaviour of cursor execution on the given SQL. -/
def databaseManager_execute_query (connected : Bool)
    (oracle : List Char → Except (List Char) DataFrame) (sql : List Char) :
    PyOutcome DataFrame :=
  if connected then
    match oracle sql with
    | .ok df => .returned df
    | .error e => .raised e
  else
    .raised ("Not connected to Oracle database".toList)

/-- Model of `execute_sql_query` in `src/src/ai_service.py`: `duck` is the behaviour
of the embedded DuckDB engine on the given SQL. -/
def execute_sql_query (duck : List Char → Except (List Char) DataFrame)
    (query : List Char) : PyOutcome LocalResult :=
  match duck query with
  | .ok df => .returned (.table df)
  | .error e => .returned (.errorText ("Error executing query: ".toList ++ e))

/-! ### Concrete inputs used by counterexamples and witnesses -/

/-- A mapping whose term misses a query that both a synonym and the
description hit. -/
def c1_mapping : BusinessMapping :=
  { business_term := "zzz".toList
    table_name := "T".toList
    column_name := "C".toList
    description := "client data".toList
    synonyms := ["client".toList]
    category := "general".toList
    confidence := 1 }

/-- First of two case-insensitive duplicates of the term `customer`. -/
def c5_m1 : BusinessMapping :=
  { business_term := "Customer".toList
    table_name := "CUSTOMERS".toList
    column_name := "CUSTOMER_ID".toList
    description := "Customer identifier".toList
    synonyms := []
    category := "a".toList
    confidence := 1 }

/-- Second duplicate, differing from the first in category and casing. -/
def c5_m2 : BusinessMapping :=
  { c5_m1 with business_term := "customer".toList, category := "b".toList }

/-! ### Helper lemmas -/

theorem lowerStr_append (a b : List Char) :
    lowerStr (a ++ b) = lowerStr a ++ lowerStr b :=
  List.map_append lowerCh a b

theorem lowerStr_length (l : List Char) : (lowerStr l).length = l.length :=
  List.length_map l lowerCh

theorem isPre_append_self (p x : List Char) : isPre p (p ++ x) = true := by
  induction p with
  | nil => rfl
  | cons a as ih => simp [isPre, ih]

theorem findSub_some_of (pat : List Char) (s : List Char) (n : Nat)
    (hn : isPre pat (s.drop n) = true)
    (hk : ∀ k, k < n → isPre pat (s.drop k) = false) :
    findSub pat s = some n := by
  induction n generalizing s with
  | zero =>
    cases s with
    | nil =>
      cases pat with
      | nil => rfl
      | cons a as => simp [isPre] at hn
    | cons c r =>
      rw [List.drop_zero] at hn
      simp [findSub, hn]
  | succ n ih =>
    cases s with
    | nil =>
      have h0 := hk 0 n.succ_pos
      rw [List.drop_nil] at hn h0
      rw [hn] at h0
      exact absurd h0 (by simp)
    | cons c r =>
      have h0 := hk 0 n.succ_pos
      rw [List.drop_zero] at h0
      have hr : findSub pat r = some n := by
        apply ih
        · rw [← List.drop_succ_cons (a := c)]; exact hn
        · intro k hklt
          have := hk (k + 1) (Nat.succ_lt_succ hklt)
          rw [List.drop_succ_cons] at this
          exact this
      simp [findSub, h0, hr]

theorem findSub_none_of (pat : List Char) (hne : pat ≠ []) (s : List Char)
    (h : ∀ k, k < s.length → isPre pat (s.drop k) = false) :
    findSub pat s = none := by
  induction s with
  | nil =>
    cases pat with
    | nil => exact absurd rfl hne
    | cons a as => rfl
  | cons c r ih =>
    have h0 := h 0 (by simp)
    rw [List.drop_zero] at h0
    have hr : findSub pat r = none := by
      apply ih
      intro k hklt
      have := h (k + 1) (by simpa using Nat.succ_lt_succ hklt)
      rw [List.drop_succ_cons] at this
      exact this
    simp [findSub, h0, hr]

theorem findSub_isPre (pat : List Char) :
    ∀ (s : List Char) (n : Nat), findSub pat s = some n →
    isPre pat (s.drop n) = true := by
  intro s
  induction s with
  | nil =>
    intro n h
    unfold findSub at h
    by_cases hp : pat.isEmpty
    · rw [if_pos hp] at h
      cases pat with
      | nil => rfl
      | cons a as => simp [List.isEmpty] at hp
    · rw [if_neg hp] at h
      exact absurd h (by simp)
  | cons c r ih =>
    intro n h
    unfold findSub at h
    by_cases hc : isPre pat (c :: r) = true
    · rw [if_pos hc] at h
      have hn := Option.some.inj h
      rw [← hn, List.drop_zero]
      exact hc
    · rw [if_neg hc] at h
      cases hr : findSub pat r with
      | none => rw [hr] at h; exact absurd h (by simp)
      | some m =>
        rw [hr] at h
        simp only [Option.map_some'] at h
        have hn := Option.some.inj h
        rw [← hn, List.drop_succ_cons]
        exact ih m hr

theorem dropWhile_dropWhile (p : Char → Bool) (l : List Char) :
    (l.dropWhile p).dropWhile p = l.dropWhile p := by
  induction l with
  | nil => rfl
  | cons a l ih =>
    by_cases h : p a
    · simp [List.dropWhile_cons, h, ih]
    · simp [List.dropWhile_cons, h]

theorem rstripWith_idem (p : Char → Bool) (l : List Char) :
    rstripWith p (rstripWith p l) = rstripWith p l := by
  simp [rstripWith, List.reverse_reverse, dropWhile_dropWhile]

theorem rstripSemis_idem (l : List Char) :
    rstripSemis (rstripSemis l) = rstripSemis l :=
  rstripWith_idem _ l

theorem countOcc_append (m : BusinessMapping) (a b : List BusinessMapping) :
    countOcc m (a ++ b) = countOcc m a + countOcc m b :=
  List.countP_append _ a b

theorem countOcc_cons (m x : BusinessMapping) (l : List BusinessMapping) :
    countOcc m (x :: l) = countOcc m l + if x = m then 1 else 0 := by
  simp [countOcc, List.countP_cons]

theorem countOcc_mappingHits_ne (ql : List Char) (x m : BusinessMapping)
    (h : x ≠ m) : countOcc m (mappingHits ql x) = 0 := by
  have hd : (x = m) = False := eq_false h
  unfold mappingHits
  split
  · simp [countOcc, List.countP_cons, hd]
  · rw [countOcc_append]
    split <;> split <;> simp [countOcc, List.countP_cons, hd]

theorem countOcc_mappingHits_le (ql : List Char) (x m : BusinessMapping) :
    countOcc m (mappingHits ql x) ≤ 2 := by
  refine le_trans (List.countP_le_length _) ?_
  unfold mappingHits
  split
  · simp
  · rw [List.length_append]
    split <;> split <;> simp

theorem countOcc_mappingHits_term_hit (ql : List Char) (m : BusinessMapping)
    (h : biContains (lowerStr m.business_term) ql = true) :
    countOcc m (mappingHits ql m) = 1 := by
  unfold mappingHits
  rw [if_pos h]
  simp [countOcc, List.countP_cons]

/-! ### Claim theorems -/

/-- C10: for every input text, the legacy extractor `extract_sql_query` of
`src/ai_service.py` and `SqlQueryTool._extract_sql` of
`src/app/tools/sql_query.py` return the same result (both the identical
string, or both none): their regexes are semantically identical. -/
theorem c10_extract_refactor_equiv :
    ∀ text : List Char, extract_sql_query_root text = sqlQueryTool_extract_sql text :=
  fun _ => rfl

/-- C6: for every snapshot produced by a successful catalog refresh,
`statistics.total_columns` equals the sum over the snapshot's tables of the
length of that table's column list. -/
theorem c6_total_columns_invariant :
    ∀ (schemas : List (List Char)) (rows : List OracleTableRow),
      (extract_oracle_schema schemas rows).statistics.total_columns =
        ((extract_oracle_schema schemas rows).tables.map
          (fun kv => kv.2.columns.length)).sum :=
  fun _ _ => rfl

/-- C9: saving then loading returns the value saved, for both the dictionary
store and the catalog store — both through the warm cache and through a cold
cache reading the file just written. -/
theorem c9_save_load_roundtrip :
    (∀ (d : BusinessDictionary) (st : DictStoreState) (now : List Char),
      (load_business_dictionary now (save_business_dictionary d st)).1 = d ∧
      (load_business_dictionary now
        ⟨none, (save_business_dictionary d st).file⟩).1 = d) ∧
    (∀ (s : SchemaMetadata) (st : SchemaStoreState),
      (load_schema (save_schema s st)).1 = some s ∧
      (load_schema ⟨none, (save_schema s st).file⟩).1 = some s) :=
  ⟨fun _ _ _ => ⟨rfl, rfl⟩, fun _ _ => ⟨rfl, rfl⟩⟩

/-- C8: with an unreadable/malformed dictionary file the loader returns the
built-in template without raising; with a missing file it returns the
template and additionally persists it to disk. -/
theorem c8_dictionary_fallback :
    ∀ (now raw : List Char),
      (load_business_dictionary now ⟨none, .corrupt raw⟩).1 =
        create_business_dictionary_template now ∧
      (load_business_dictionary now ⟨none, .missing⟩).1 =
        create_business_dictionary_template now ∧
      (load_business_dictionary now ⟨none, .missing⟩).2.file =
        .good (create_business_dictionary_template now) :=
  fun _ _ => ⟨rfl, rfl, rfl⟩

/-- C2: a remote-keyword hit routes to the Oracle backend with the term
resolver not consulted, for every dictionary content; and the resolver is
consulted exactly when no keyword matches. -/
theorem c2_keyword_precedence :
    ∀ (msg : List Char) (mappings : List BusinessMapping),
      (keywordHit msg = true →
        enhanced_query_route msg mappings = ⟨true, false, []⟩) ∧
      (enhanced_query_route msg mappings).resolverConsulted = !keywordHit msg := by
  intro msg mappings
  constructor
  · intro h
    simp [enhanced_query_route, h]
  · by_cases h : keywordHit msg <;> simp [enhanced_query_route, h]

/-- Witness for C2 at a concrete keyword-bearing message and a non-empty
dictionary. -/
theorem c2_keyword_precedence_witness :
    keywordHit ("Show me the database tables".toList) = true ∧
    enhanced_query_route ("Show me the database tables".toList)
      (create_business_dictionary_template ("2024-01-01".toList)).mappings =
      ⟨true, false, []⟩ :=
  ⟨by decide,
   (c2_keyword_precedence ("Show me the database tables".toList)
     (create_business_dictionary_template ("2024-01-01".toList)).mappings).1
     (by decide)⟩

/-- C7 counterexample: the remote adapter called while not connected raises
(`RuntimeError`) instead of returning a typed failure value. -/
theorem c7_counterexample :
    databaseManager_execute_query false (fun _ => Except.ok ⟨[], []⟩)
      ("SELECT 1 FROM DUAL".toList) =
      PyOutcome.raised ("Not connected to Oracle database".toList) ∧
    (databaseManager_execute_query false (fun _ => Except.ok ⟨[], []⟩)
      ("SELECT 1 FROM DUAL".toList)).isReturned = false :=
  ⟨rfl, rfl⟩

/-- C7 amended: the local adapter always returns a value (error text instead
of an exception); the remote adapter raises `RuntimeError` whenever it is
not connected, and re-raises every backend execution error — the
orchestrator, not the adapter, catches them. -/
theorem c7_amended_adapter_propagation :
    (∀ (duck : List Char → Except (List Char) DataFrame) (q : List Char),
      (execute_sql_query duck q).isReturned = true) ∧
    (∀ (oracle : List Char → Except (List Char) DataFrame) (q : List Char),
      databaseManager_execute_query false oracle q =
        PyOutcome.raised ("Not connected to Oracle database".toList)) ∧
    (∀ (oracle : List Char → Except (List Char) DataFrame) (q e : List Char),
      oracle q = Except.error e →
      databaseManager_execute_query true oracle q = PyOutcome.raised e) := by
  refine ⟨fun duck q => ?_, fun oracle q => rfl, fun oracle q e h => ?_⟩
  · unfold execute_sql_query
    cases duck q <;> rfl
  · simp [databaseManager_execute_query, h]

/-- Witness for C7's amended statement at a concrete failing backend. -/
theorem c7_amended_witness :
    databaseManager_execute_query true
      (fun _ => Except.error ("ORA-00942: table or view does not exist".toList))
      ("SELECT x FROM missing_t".toList) =
      PyOutcome.raised ("ORA-00942: table or view does not exist".toList) :=
  c7_amended_adapter_propagation.2.2 _ _ _ rfl

/-- C1 counterexample: a mapping that misses the query on its term but is
hit by both a synonym and its description is appended twice — after the
synonym hit the loop only `break`s out of the synonym scan and still runs
the description test. -/
theorem c1_counterexample :
    ¬ countOcc c1_mapping
        (search_business_terms ("client".toList) [c1_mapping]) ≤ 1 ∧
    countOcc c1_mapping [c1_mapping] = 1 := by
  constructor <;> decide

/-- C1 amended: each dictionary entry contributes at most two occurrences to
the search result (not one): exactly one per occurrence when the query
matches its business term, and otherwise up to one for a synonym hit plus
one for a description hit. -/
theorem c1_amended_search_multiplicity :
    ∀ (q : List Char) (mappings : List BusinessMapping) (m : BusinessMapping),
      countOcc m (search_business_terms q mappings) ≤ 2 * countOcc m mappings ∧
      (biContains (lowerStr m.business_term) (lowerStr q) = true →
        countOcc m (search_business_terms q mappings) = countOcc m mappings) := by
  intro q mappings m
  induction mappings with
  | nil =>
    exact ⟨by simp [search_business_terms, countOcc],
           fun _ => by simp [search_business_terms, countOcc]⟩
  | cons x ms ih =>
    have hsplit : search_business_terms q (x :: ms) =
        mappingHits (lowerStr q) x ++ search_business_terms q ms := by
      simp [search_business_terms]
    constructor
    · rw [hsplit, countOcc_append, countOcc_cons]
      by_cases hxm : x = m
      · subst hxm
        have h1 := countOcc_mappingHits_le (lowerStr q) x x
        have h2 := ih.1
        have hone : (if x = x then 1 else 0) = 1 := by simp
        rw [hone]
        omega
      · rw [countOcc_mappingHits_ne _ _ _ hxm]
        have h2 := ih.1
        simp only [if_neg hxm]
        omega
    · intro ht
      rw [hsplit, countOcc_append, countOcc_cons]
      by_cases hxm : x = m
      · subst hxm
        rw [countOcc_mappingHits_term_hit _ _ ht, ih.2 ht, if_pos rfl]
        omega
      · rw [countOcc_mappingHits_ne _ _ _ hxm, ih.2 ht, if_neg hxm]
        omega

/-- Witness for C1's amended statement: a query equal to the business term
hits exactly once. -/
theorem c1_amended_witness :
    countOcc c1_mapping (search_business_terms ("zzz".toList) [c1_mapping]) =
      countOcc c1_mapping [c1_mapping] :=
  (c1_amended_search_multiplicity ("zzz".toList) [c1_mapping] c1_mapping).2
    (by decide)

/-- C5 counterexample: with two case-insensitive duplicates of `customer`,
`remove` deletes both — the later duplicate is not left in place as the
claim states. -/
theorem c5_counterexample :
    (remove_business_mapping ("CUSTOMER".toList) [c5_m1, c5_m2]).2 = [] ∧
    (remove_business_mapping ("CUSTOMER".toList) [c5_m1, c5_m2]).2 ≠ [c5_m2] := by
  constructor <;> decide

/-- C5 amended: `update` patches only the first case-insensitively matching
entry, leaving later duplicates untouched; `remove` deletes every
case-insensitively matching entry (not only the first), leaving the
multiplicity of non-matching entries unchanged. -/
theorem c5_amended_update_first_remove_all :
    (∀ (term : List Char) (p : MappingPatch) (pre : List BusinessMapping)
        (m : BusinessMapping) (post : List BusinessMapping),
      (∀ x ∈ pre, lowerStr x.business_term ≠ lowerStr term) →
      lowerStr m.business_term = lowerStr term →
      update_business_mapping term p (pre ++ m :: post) =
        (true, pre ++ applyPatch p m :: post)) ∧
    (∀ (term : List Char) (ms : List BusinessMapping) (m : BusinessMapping),
      countOcc m (remove_business_mapping term ms).2 =
        if lowerStr m.business_term = lowerStr term then 0
        else countOcc m ms) := by
  constructor
  · intro term p pre m post hpre hm
    induction pre with
    | nil => simp [update_business_mapping, hm]
    | cons x pre' ih =>
      have hx : lowerStr x.business_term ≠ lowerStr term := hpre x (by simp)
      have ih' := ih (fun y hy => hpre y (by simp [hy]))
      simp only [List.cons_append, update_business_mapping, List.append_eq,
        if_neg hx, ih']
  · intro term ms m
    induction ms with
    | nil => simp [remove_business_mapping, countOcc]
    | cons x ms ih =>
      simp only [remove_business_mapping] at ih ⊢
      by_cases hx : lowerStr x.business_term = lowerStr term
      · rw [List.filter_cons_of_neg (by simp [hx])]
        by_cases hxm : x = m
        · subst hxm
          rw [ih, if_pos hx, if_pos hx]
        · rw [ih, countOcc_cons, if_neg hxm]
          by_cases hP : lowerStr m.business_term = lowerStr term <;> simp [hP]
      · rw [List.filter_cons_of_pos (by simp [hx])]
        by_cases hxm : x = m
        · subst hxm
          rw [if_neg hx, countOcc_cons, countOcc_cons, ih, if_neg hx]
        · rw [countOcc_cons, if_neg hxm, countOcc_cons, if_neg hxm, ih]
          by_cases hP : lowerStr m.business_term = lowerStr term <;> simp [hP]

/-- Witness for C5's amended statement: patching the first of the two
duplicates leaves the second untouched. -/
theorem c5_amended_witness :
    update_business_mapping ("CUSTOMER".toList)
      { description := some ("patched".toList) } [c5_m1, c5_m2] =
      (true,
        [applyPatch { description := some ("patched".toList) } c5_m1, c5_m2]) := by
  simpa using
    c5_amended_update_first_remove_all.1 ("CUSTOMER".toList)
      { description := some ("patched".toList) } [] c5_m1 [c5_m2]
      (by simp) (by decide)

/-- Every result of the extractor has already had all trailing semicolons
removed (each returning branch ends in `rstrip(';')`). -/
theorem extract_sql_query_shape (text : List Char) :
    extract_sql_query text = none ∨
    ∃ x, extract_sql_query text = some (rstripSemis x) := by
  unfold extract_sql_query
  split
  · split
    · exact Or.inr ⟨_, rfl⟩
    · split
      · exact Or.inr ⟨_, rfl⟩
      · exact Or.inl rfl
  · split
    · exact Or.inr ⟨_, rfl⟩
    · exact Or.inl rfl

/-- C4 counterexample: a fenced statement ending in `;;` loses *both*
terminators, where the claim says exactly one is stripped. -/
theorem c4_counterexample :
    extract_sql_query ("```sql\nSELECT 1;;\n```".toList) =
      some ("SELECT 1".toList) ∧
    extract_sql_query ("```sql\nSELECT 1;;\n```".toList) ≠
      some ("SELECT 1;".toList) := by
  constructor <;> decide

/-- C4 amended: the extractor strips *all* trailing statement terminators
(Python `rstrip(';')`): no extracted statement ends in a semicolon, and both
`"SELECT 1;"` and `"SELECT 1;;"` inside a fenced block come back as
`"SELECT 1"`. -/
theorem c4_amended_strip_all_semicolons :
    (∀ (text r : List Char), extract_sql_query text = some r →
      rstripSemis r = r) ∧
    extract_sql_query ("```sql\nSELECT 1;\n```".toList) =
      some ("SELECT 1".toList) ∧
    extract_sql_query ("```sql\nSELECT 1;;\n```".toList) =
      some ("SELECT 1".toList) := by
  refine ⟨?_, by decide, by decide⟩
  intro text r h
  rcases extract_sql_query_shape text with h0 | ⟨x, h0⟩
  · rw [h0] at h
    exact absurd h (by simp)
  · rw [h0] at h
    have hx := Option.some.inj h
    rw [← hx]
    exact rstripSemis_idem x

/-- Witness for C4's amended statement at a concrete input. -/
theorem c4_amended_witness :
    rstripSemis ("SELECT 1".toList) = "SELECT 1".toList :=
  c4_amended_strip_all_semicolons.1 ("```sql\nSELECT 1;;\n```".toList)
    ("SELECT 1".toList) (by decide)

/-- C3 counterexample: the claim says the extractor returns the interior of
the first SQL-labeled fence trimmed of whitespace; on a fenced statement
ending in a semicolon the code additionally strips the semicolon, so the
returned value differs from the trimmed interior. -/
theorem c3_counterexample :
    pyStrip ("\nSELECT 1;\n".toList) = "SELECT 1;".toList ∧
    extract_sql_query ("```sql\nSELECT 1;\n```".toList) ≠
      some (pyStrip ("\nSELECT 1;\n".toList)) ∧
    extract_sql_query ("```sql\nSELECT 1;\n```".toList) =
      some ("SELECT 1".toList) := by
  refine ⟨by decide, by decide, by decide⟩

/-- When no SQL-labeled fenced block is *closed* anywhere in the text — no
occurrence of the opener is followed, six or more characters later, by a
closing fence — rule 1 of the extractor fails (also when an unclosed opener
is present: a `re.search` match needs a closing fence after the opener) and
the extractor falls through to the SELECT rule. -/
theorem ruleOne_fallback (t : List Char)
    (hnofence : ∀ k, k < t.length → ∀ j, j < t.length →
      isPre sqlFenceOpen ((lowerStr t).drop k) = true → k + 6 ≤ j →
      isPre fenceMark (t.drop j) = false) :
    extract_sql_query t =
      match findSub selectTok (lowerStr t) with
      | some k => some (rstripSemis (pyStrip (takeUntilBlank (t.drop k))))
      | none => none := by
  cases hfs : findSub sqlFenceOpen (lowerStr t) with
  | none => simp only [extract_sql_query, hfs]
  | some i =>
    have hiPre : isPre sqlFenceOpen ((lowerStr t).drop i) = true :=
      findSub_isPre _ _ _ hfs
    have hilt : i < t.length := by
      by_contra hcon
      push_neg at hcon
      rw [List.drop_eq_nil_of_le (by rwa [lowerStr_length])] at hiPre
      exact absurd hiPre (by decide)
    have hfnone : findSub fenceMark (t.drop (i + 6)) = none := by
      apply findSub_none_of _ (by decide)
      intro k hk
      rw [List.drop_drop]
      rw [List.length_drop] at hk
      exact hnofence i hilt (i + 6 + k) (by omega) hiPre (by omega)
    simp only [extract_sql_query, hfs, hfnone]

/-- C3 amended: first rule that matches wins — (1) the interior of the first
fenced code block labeled as SQL (any casing), trimmed of whitespace *and
stripped of all trailing semicolons*; (2) failing that — no opener is
followed by a closing fence, which also covers texts with an unclosed
opener — the substring from the first case-insensitive SELECT to the first
blank separator or the end, trimmed and semicolon-stripped; (3) otherwise
none.  The claim's two examples hold as stated. -/
theorem c3_amended_extraction_rules :
    (∀ (t pre opener mid post : List Char),
      t = pre ++ (opener ++ (mid ++ (fenceMark ++ post))) →
      lowerStr opener = sqlFenceOpen →
      (∀ k, k < pre.length →
        isPre sqlFenceOpen ((lowerStr t).drop k) = false) →
      (∀ k, k < mid.length →
        isPre fenceMark ((mid ++ (fenceMark ++ post)).drop k) = false) →
      extract_sql_query t = some (rstripSemis (pyStrip mid))) ∧
    (∀ (t pre sel : List Char),
      t = pre ++ sel →
      isPre selectTok (lowerStr sel) = true →
      (∀ k, k < t.length → ∀ j, j < t.length →
        isPre sqlFenceOpen ((lowerStr t).drop k) = true → k + 6 ≤ j →
        isPre fenceMark (t.drop j) = false) →
      (∀ k, k < pre.length →
        isPre selectTok ((lowerStr t).drop k) = false) →
      extract_sql_query t = some (rstripSemis (pyStrip (takeUntilBlank sel)))) ∧
    (∀ t : List Char,
      (∀ k, k < t.length → ∀ j, j < t.length →
        isPre sqlFenceOpen ((lowerStr t).drop k) = true → k + 6 ≤ j →
        isPre fenceMark (t.drop j) = false) →
      (∀ k, k < t.length →
        isPre selectTok ((lowerStr t).drop k) = false) →
      extract_sql_query t = none) ∧
    extract_sql_query ("```sql\nSELECT 1\n```".toList) =
      some ("SELECT 1".toList) ∧
    extract_sql_query ("no sql here".toList) = none := by
  refine ⟨?_, ?_, ?_, by decide, by decide⟩
  · intro t pre opener mid post ht hop h1 h2
    have h6 : sqlFenceOpen.length = 6 := by decide
    have hlen : opener.length = 6 := by
      rw [← h6, ← hop]
      exact (lowerStr_length opener).symm
    have hdropPre : (lowerStr t).drop pre.length =
        lowerStr (opener ++ (mid ++ (fenceMark ++ post))) := by
      rw [ht, lowerStr_append, ← lowerStr_length pre]
      exact List.drop_left _ _
    have hopen : findSub sqlFenceOpen (lowerStr t) = some pre.length := by
      apply findSub_some_of
      · rw [hdropPre, lowerStr_append, hop]
        exact isPre_append_self _ _
      · exact h1
    have hlen2 : pre.length + 6 = (pre ++ opener).length := by
      rw [List.length_append, hlen]
    have hrest : t.drop (pre.length + 6) = mid ++ (fenceMark ++ post) := by
      rw [ht, ← List.append_assoc, hlen2]
      exact List.drop_left _ _
    have hfence : findSub fenceMark (mid ++ (fenceMark ++ post)) =
        some mid.length := by
      apply findSub_some_of
      · rw [List.drop_left mid (fenceMark ++ post)]
        exact isPre_append_self _ _
      · exact h2
    have htake : (mid ++ (fenceMark ++ post)).take mid.length = mid :=
      List.take_left _ _
    simp only [extract_sql_query, hopen, hrest, hfence, htake]
  · intro t pre sel ht hsel hnofence hfirst
    have hdropPre : (lowerStr t).drop pre.length = lowerStr sel := by
      rw [ht, lowerStr_append, ← lowerStr_length pre]
      exact List.drop_left _ _
    have hfind : findSub selectTok (lowerStr t) = some pre.length := by
      apply findSub_some_of
      · rw [hdropPre]
        exact hsel
      · exact hfirst
    have hdrop : t.drop pre.length = sel := by
      rw [ht]
      exact List.drop_left _ _
    rw [ruleOne_fallback t hnofence]
    simp only [hfind, hdrop]
  · intro t hnofence hnosel
    have hnone2 : findSub selectTok (lowerStr t) = none := by
      apply findSub_none_of _ (by decide)
      intro k hk
      exact hnosel k (by rwa [lowerStr_length] at hk)
    rw [ruleOne_fallback t hnofence]
    simp only [hnone2]

/-- Witness for C3's amended statement: a mixed-case labeled fence inside
surrounding prose is extracted, trimmed and semicolon-stripped. -/
theorem c3_amended_witness :
    extract_sql_query
      ("Answer:\n".toList ++ ("```SQL".toList ++ ("\nSELECT a FROM t;\n".toList ++
        (fenceMark ++ " done".toList)))) =
      some (rstripSemis (pyStrip ("\nSELECT a FROM t;\n".toList))) :=
  c3_amended_extraction_rules.1 _ ("Answer:\n".toList) ("```SQL".toList)
    ("\nSELECT a FROM t;\n".toList) (" done".toList) rfl (by decide)
    (by decide) (by decide)

end DataChat
